import Mathlib

/-!
# xttp: a retrying HTTP client (Go) — shallow embedding and checked properties

The development follows the four source files of the package:

* `http.go`         transport and `http.Client` constructors,
* `client.go`       `Options`, `Client`, `NewClient`, `NewWithHTTPClient`,
                    `setKillIdleConnections`,
* `methods.go`      the verb helpers and `Client.request`,
* `http_request.go` `HTTPRequest`, its verb methods and the `Async*` wrappers.

Conventions of the embedding

* Go `int`, `int64` and `time.Duration` values are `Int` (a duration counts
  nanoseconds); where the source multiplies, the product is wrapped to 64 bits.
* A Go pointer or interface that may be `nil` is an `Option`.
* A run-time panic is an explicit result, `Outcome.panic`; this includes the
  panics of the runtime and the standard library on the paths modelled:
  `make` of a channel with a size out of range, `time.NewTicker` with a
  period that is not positive.
* `float64` arithmetic is modelled exactly: a value is a signed fraction and
  every operation rounds the exact result to the nearest 53-bit significand,
  ties to even.
-/

namespace Xttp

/-! ## Results that may panic -/

/-- The run-time panics the modelled code can raise. -/
inductive Panic where
  /-- A field is read through a nil pointer. -/
  | nilDereference
  /-- The standard library refuses a ticker whose period is not positive. -/
  | nonPositiveInterval
  /-- A single-value type assertion `x.(T)` on a value that is not a `T`. -/
  | typeAssertion
  /-- The runtime refuses `make(chan T, n)`: "makechan: size out of range". -/
  | chanSizeOutOfRange
deriving DecidableEq, Repr

/-- The result of running a Go function: a value, or a panic. -/
inductive Outcome (α : Type) where
  | ok (a : α)
  | panic (p : Panic)
deriving DecidableEq, Repr

namespace Outcome

/-- Sequencing: a panic aborts what follows. -/
def bind {α β : Type} (x : Outcome α) (f : α → Outcome β) : Outcome β :=
  match x with
  | ok a => f a
  | panic p => panic p

end Outcome

/-! ## Machine integers and durations -/

/-- Reduction of an integer to the signed 64-bit range (two's complement). -/
def wrap64 (x : Int) : Int :=
  (x + 2 ^ 63) % 2 ^ 64 - 2 ^ 63

/-- Go's `time.Second`, in nanoseconds. -/
def Second : Int := 1000000000

/-! ## float64 -/

/-- A finite float64 value: sign and magnitude `num / den`. -/
structure F64 where
  neg : Bool
  num : Nat
  den : Nat
deriving DecidableEq, Repr

/-- Numerator and denominator of `n / d * 2 ^ (-e)`. -/
def scaleBy (n d : Nat) (e : Int) : Nat × Nat :=
  if 0 ≤ e then (n, d * 2 ^ e.toNat) else (n * 2 ^ (-e).toNat, d)

/-- The position of the highest set bit of `n`, found by halving at most
`fuel` times. -/
def highBit : Nat → Nat → Nat
  | 0, _ => 0
  | fuel + 1, n => if n < 2 then 0 else highBit fuel (n / 2) + 1

/-- The binary logarithm of `n`, rounded down (0 for `n = 0`). -/
def floorLog2 (n : Nat) : Nat := highBit n n

/-- The float64 nearest to the positive fraction `n / d`: the significand is
the quotient scaled into `[2^52, 2^53)` and rounded to nearest, ties to even.
The exponent is not bounded (no overflow to infinity, no subnormals): the
values that arise from 64-bit durations stay far inside the normal range. -/
def roundNearestEven (n d : Nat) : Nat × Nat :=
  if n = 0 ∨ d = 0 then (0, 1)
  else
    let e0 : Int := (floorLog2 n : Int) - (floorLog2 d : Int) - 52
    let s0 := scaleBy n d e0
    let e : Int := if s0.1 / s0.2 < 2 ^ 52 then e0 - 1 else e0
    let s := scaleBy n d e
    let q := s.1 / s.2
    let r := s.1 % s.2
    let q1 := if s.2 < 2 * r ∨ (2 * r = s.2 ∧ q % 2 = 1) then q + 1 else q
    if 0 ≤ e then (q1 * 2 ^ e.toNat, 1) else (q1, 2 ^ (-e).toNat)

/-- Rounding of a signed fraction. -/
def F64.round (neg : Bool) (n d : Nat) : F64 :=
  let r := roundNearestEven n d
  { neg := neg, num := r.1, den := r.2 }

/-- Conversion `float64(i)` of an integer. -/
def F64.ofInt (i : Int) : F64 :=
  F64.round (decide (i < 0)) i.natAbs 1

/-- The value as a signed numerator over `den`. -/
def F64.signedNum (x : F64) : Int :=
  if x.neg then -(x.num : Int) else (x.num : Int)

/-- Float addition `x + y`. -/
def F64.add (x y : F64) : F64 :=
  let s : Int := x.signedNum * y.den + y.signedNum * x.den
  F64.round (decide (s < 0)) s.natAbs (x.den * y.den)

/-- Float multiplication `x * y`. -/
def F64.mul (x y : F64) : F64 :=
  F64.round (x.neg != y.neg) (x.num * y.num) (x.den * y.den)

/-- Float division `x / y` (for `y` not zero). -/
def F64.div (x y : F64) : F64 :=
  F64.round (x.neg != y.neg) (x.num * y.den) (x.den * y.num)

/-- Conversion of a float to an integer: truncation toward zero. -/
def F64.trunc (x : F64) : Int :=
  if x.neg then -((x.num / x.den : Nat) : Int) else ((x.num / x.den : Nat) : Int)

/-- The float64 constant written `0.3` in the source. -/
def const0_3 : F64 := F64.round false 3 10

/-- The float64 constant written `1e9` in the standard library. -/
def const1e9 : F64 := F64.round false 1000000000 1

/-- Go's `Duration.Seconds`:
`sec := d / Second; nsec := d % Second; float64(sec) + float64(nsec)/1e9`. -/
def Seconds (d : Int) : F64 :=
  let sec := Int.tdiv d Second
  let nsec := Int.tmod d Second
  F64.add (F64.ofInt sec) (F64.div (F64.ofInt nsec) const1e9)

/-! ## `http.go`: transports and HTTP clients -/

/-- The fields of `net.Dialer` the source sets. -/
structure Dialer where
  Timeout : Int
  KeepAlive : Int
deriving DecidableEq, Repr

/-- The fields of `tls.Config` the source sets; `Renegotiation` is the
numeric value of the constant (`RenegotiateOnceAsClient` is 1). -/
structure TLSConfig where
  Renegotiation : Nat
  InsecureSkipVerify : Bool
deriving DecidableEq, Repr

/-- The fields of `http.Transport` the source sets or reads. A field the
source leaves out of the composite literal has Go's zero value. -/
structure Transport where
  ProxyFromEnvironment : Bool
  DialContext : Option Dialer
  MaxIdleConns : Int
  IdleConnTimeout : Int
  TLSHandshakeTimeout : Int
  ExpectContinueTimeout : Int
  MaxIdleConnsPerHost : Int
  MaxResponseHeaderBytes : Int
  TLSClientConfig : Option TLSConfig
  DisableKeepAlives : Bool
  MaxConnsPerHost : Int
deriving DecidableEq, Repr

/-- The dynamic value held in the interface-typed field `http.Client.Transport`
when it is not the nil interface: a `*http.Transport` (possibly a nil
pointer of that type), or some other round tripper. -/
inductive RoundTripper where
  | transport (p : Option Transport)
  | other (tag : Nat)
deriving DecidableEq, Repr

/-- Go's `http.Client`, reduced to the fields the source touches. -/
structure HttpClient where
  Transport : Option RoundTripper
  Timeout : Int
deriving DecidableEq, Repr

/-- Source: `DefaultReusePooledTransport`. -/
def DefaultReusePooledTransport : Transport :=
  { ProxyFromEnvironment := true
    DialContext := some { Timeout := 30 * Second, KeepAlive := 30 * Second }
    MaxIdleConns := 100
    IdleConnTimeout := 90 * Second
    TLSHandshakeTimeout := 10 * Second
    ExpectContinueTimeout := 1 * Second
    MaxIdleConnsPerHost := 100
    MaxResponseHeaderBytes := 4096
    TLSClientConfig := some { Renegotiation := 1, InsecureSkipVerify := true }
    DisableKeepAlives := false
    MaxConnsPerHost := 0 }

/-- Source: `DefaultHostSprayingTransport`. -/
def DefaultHostSprayingTransport : Transport :=
  let transport := DefaultReusePooledTransport
  let transport := { transport with DisableKeepAlives := true }
  let transport := { transport with MaxIdleConnsPerHost := -1 }
  transport

/-- Source: `DefaultSprayingClient`. -/
def DefaultSprayingClient : HttpClient :=
  { Transport := some (.transport (some DefaultHostSprayingTransport)), Timeout := 0 }

/-- Source: `DefaultClient`. -/
def DefaultClient : HttpClient :=
  { Transport := some (.transport (some DefaultReusePooledTransport)), Timeout := 0 }

/-! ## `client.go`: options and clients -/

/-- A buffered channel used as a counting semaphore: its capacity. -/
structure Chan where
  cap : Int
deriving DecidableEq, Repr

/-- The receive side of a `time.Ticker`: its period in nanoseconds. -/
structure Ticker where
  period : Int
deriving DecidableEq, Repr

/-- Source: `Options`. -/
structure Options where
  RetryWaitMin : Int
  RetryWaitMax : Int
  Timeout : Int
  RetryMax : Int
  RespReadLimit : Int
  Verbose : Bool
  KillIdleConn : Bool
  MaxPoolSize : Int
  ReqPerSec : Int
  Semaphore : Option Chan
  RateLimiter : Option Ticker
deriving DecidableEq, Repr

/-- Source: `DefaultOptionsSpraying`. -/
def DefaultOptionsSpraying : Options :=
  { RetryWaitMin := 1 * Second
    RetryWaitMax := 30 * Second
    Timeout := 30 * Second
    RetryMax := 5
    RespReadLimit := 4096
    Verbose := false
    KillIdleConn := true
    MaxPoolSize := 100
    ReqPerSec := 10
    Semaphore := none
    RateLimiter := none }

/-- Source: `DefaultOptionsSingle`. -/
def DefaultOptionsSingle : Options :=
  { RetryWaitMin := 1 * Second
    RetryWaitMax := 30 * Second
    Timeout := 30 * Second
    RetryMax := 5
    RespReadLimit := 4096
    Verbose := false
    KillIdleConn := false
    MaxPoolSize := 100
    ReqPerSec := 10
    Semaphore := none
    RateLimiter := none }

/-- The retry policies a client can carry; only their identity matters here. -/
inductive RetryPolicyId where
  | DefaultRetryPolicy
deriving DecidableEq, Repr

/-- The backoff policies a client can carry; only their identity matters here. -/
inductive BackoffId where
  | DefaultBackoff
  | ExponentialJitterBackoff
deriving DecidableEq, Repr

/-- Source: `Client`. The three hook fields are function values; a
constructor of this package leaves them nil. -/
structure Client where
  HTTPClient : Option HttpClient
  RequestLogHook : Option Nat
  ResponseLogHook : Option Nat
  ErrorHandler : Option Nat
  CheckRetry : RetryPolicyId
  Backoff : BackoffId
  options : Options
deriving DecidableEq, Repr

/-- Source: `(*Client).setKillIdleConnections`.
```go
if c.HTTPClient != nil || !c.options.KillIdleConn {
    if b, ok := c.HTTPClient.Transport.(*http.Transport); ok {
        c.options.KillIdleConn = b.DisableKeepAlives || b.MaxConnsPerHost < 0
    }
}
```
Reading `c.HTTPClient.Transport` through a nil `HTTPClient` panics, and so
does reading a field of `b` when the interface holds a nil `*http.Transport`. -/
def setKillIdleConnections (c : Client) : Outcome Client :=
  if c.HTTPClient.isSome || !c.options.KillIdleConn then
    match c.HTTPClient with
    | none => .panic .nilDereference
    | some h =>
      match h.Transport with
      | some (.transport (some b)) =>
        .ok { c with options :=
          { c.options with KillIdleConn := b.DisableKeepAlives || decide (b.MaxConnsPerHost < 0) } }
      | some (.transport none) => .panic .nilDereference
      | some (.other _) => .ok c
      | none => .ok c
  else .ok c

/-- Standard library `time.NewTicker`: the period must be positive, else it
panics. -/
def NewTicker (d : Int) : Outcome Ticker :=
  if d ≤ 0 then .panic .nonPositiveInterval else .ok { period := d }

/-- The per-request timeout computed in `NewClient`:
`time.Duration(options.Timeout.Seconds()*0.3) * time.Second`. -/
def adjustedTimeout (timeout : Int) : Int :=
  wrap64 (F64.trunc (F64.mul (Seconds timeout) const0_3) * Second)

/-- The size in bytes of a Go `int`, the element of the semaphore channel, on
a 64-bit platform. -/
def intSize : Int := 8

/-- The runtime constant `maxAlloc`, the largest single allocation: 2^48 bytes
on a 64-bit platform with 48 address bits. -/
def maxAlloc : Int := 2 ^ 48

/-- The runtime constant `hchanSize`, the size of a channel header: 104
bytes on a 64-bit platform. -/
def hchanSize : Int := 104

/-- The largest capacity the runtime accepts for a `chan int`: the buffer and
the header together fit in one allocation. Its value is 2^45 - 13. -/
def maxChanCap : Int := (maxAlloc - hchanSize) / intSize

/-- Go runtime `makechan` at element type `int`, for `make(chan int, size)`:
```go
mem, overflow := math.MulUintptr(elem.Size_, uintptr(size))
if overflow || mem > maxAlloc-hchanSize || size < 0 {
    panic(plainError("makechan: size out of range"))
}
```
A size the runtime accepts yields an empty channel of that capacity. -/
def makeChanInt (size : Int) : Outcome Chan :=
  if size < 0 ∨ intSize * size > maxAlloc - hchanSize then .panic .chanSizeOutOfRange
  else .ok { cap := size }

/-- Source: `NewClient`. The statements run in the order of the source: the
timeout, then `make(chan int, options.MaxPoolSize)`, then `time.NewTicker`,
then `setKillIdleConnections`; a panic in one of them ends the call. -/
def NewClient (options : Options) : Outcome Client :=
  let httpclient := DefaultClient
  let httpclient :=
    if options.Timeout > Second * 15 then
      { httpclient with Timeout := adjustedTimeout options.Timeout }
    else httpclient
  let semaphore : Outcome (Option Chan) :=
    if options.MaxPoolSize > 0 then
      (makeChanInt options.MaxPoolSize).bind (fun ch => .ok (some ch))
    else .ok none
  semaphore.bind fun semaphore =>
  let emitter : Outcome (Option Ticker) :=
    if options.ReqPerSec > 0 then
      (NewTicker (Int.tdiv Second options.ReqPerSec)).bind (fun t => .ok (some t))
    else .ok none
  emitter.bind fun emitter =>
    let options := { options with Semaphore := semaphore }
    let options := { options with RateLimiter := emitter }
    setKillIdleConnections
      { HTTPClient := some httpclient
        RequestLogHook := none
        ResponseLogHook := none
        ErrorHandler := none
        CheckRetry := .DefaultRetryPolicy
        Backoff := .ExponentialJitterBackoff
        options := options }

/-- Source: `NewWithHTTPClient`. -/
def NewWithHTTPClient (client : Option HttpClient) (options : Options) : Outcome Client :=
  setKillIdleConnections
    { HTTPClient := client
      RequestLogHook := none
      ResponseLogHook := none
      ErrorHandler := none
      CheckRetry := .DefaultRetryPolicy
      Backoff := .DefaultBackoff
      options := options }

/-! ## `methods.go`: the verb helpers and `Client.request`

Code outside the four files is a parameter of the model, gathered in `Env`:
`NewRequest` and `(*Client).Do` of this package, the query-string encoder, and
the ordered map that holds the headers. -/

/-- A Go `interface{}` value, as far as the code tells values apart: a string
(the only kind a header key or value may be), a byte slice, or anything else. -/
inductive Value where
  | str (s : String)
  | bytes (b : String)
  | other (tag : Nat)
deriving DecidableEq, Repr

/-- A Go `error` value. -/
structure Err where
  msg : String
deriving DecidableEq, Repr

/-- The `body interface{}` argument of `Client.request`. -/
inductive Body where
  | nil
  | buffer (content : String)
  | value (v : Value)
deriving DecidableEq, Repr

/-- The contents of an ordered header map: keys and values are `interface{}`. -/
abbrev HeaderMap := List (Value × Value)

/-- A request under construction: what `NewRequest` was given, and the
`req.Header.Set` calls applied to it since, in order. -/
structure Request where
  method : String
  url : String
  body : Body
  header : List (String × String)
deriving DecidableEq, Repr

/-- An `http.Response`: status code and the part of the body not yet read. -/
structure Response where
  StatusCode : Int
  Body : String
deriving DecidableEq, Repr

/-- One record handed to the logger by `HTTPRequest.Log`. -/
structure LogEntry where
  url : String
  payload : Value
  headers : List (String × String)
  status : Int
  response : String
  isError : Bool
deriving DecidableEq, Repr

/-- The observable effects of the request path, recorded in order. -/
inductive Event where
  /-- One call `req.Header.Set(key, value)`. -/
  | headerSet (key value : String)
  /-- One call `c.Do(req)`: the only place a physical request (and the retry
  loop around it) starts. -/
  | doCall (req : Request)
  /-- One log record emitted. -/
  | logged (entry : LogEntry)
deriving DecidableEq, Repr

/-- The code the four files call but do not contain. -/
structure Env where
  /-- Package function `NewRequest(method, url, body)`. -/
  NewRequest : String → String → Body → Except Err Request
  /-- Method `(*Client).Do(req)`: the retrying send. -/
  Do : Client → Request → Option Response × Option Err
  /-- Library `urlquery.Marshal`, as the string of the bytes it returns. -/
  marshalQuery : Value → String
  /-- Library `mp.New()`. -/
  mapNew : HeaderMap
  /-- Library `(*mp.Map).Put`. -/
  mapPut : HeaderMap → Value → Value → HeaderMap
  /-- The entries in the order `(*mp.Map).UnorderedRange` visits them. -/
  mapRange : HeaderMap → List (Value × Value)

/-- What a verb helper of `Client` hands back: the two Go results, the header
map after the call (the helpers write into the caller's map), and the
effects so far. -/
structure Reply where
  resp : Option Response
  err : Option Err
  headers : Option HeaderMap
  trace : List Event
deriving DecidableEq, Repr

/-- The callback of `Client.request`, run over the entries of the map:
`req.Header.Set(key.(string), value.(string))`. -/
def setHeaders : List (Value × Value) → Request → List Event → Outcome (Request × List Event)
  | [], req, tr => .ok (req, tr)
  | (.str k, .str v) :: rest, req, tr =>
    setHeaders rest { req with header := req.header ++ [(k, v)] } (tr ++ [.headerSet k v])
  | _ :: _, _, _ => .panic .typeAssertion

/-- Source: `(*Client).request`.
```go
req, err := NewRequest(method, url, body)
if err != nil {
    return nil, err
}
headers.UnorderedRange(func(key interface{}, value interface{}) {
    req.Header.Set(key.(string), value.(string))
})
return c.Do(req)
```
-/
def Client.request (env : Env) (c : Client) (method url : String) (body : Body)
    (headers : Option HeaderMap) (tr : List Event) : Outcome Reply :=
  match env.NewRequest method url body with
  | .error err => .ok { resp := none, err := some err, headers := headers, trace := tr }
  | .ok req =>
    match headers with
    | none => .panic .nilDereference
    | some h =>
      (setHeaders (env.mapRange h) req tr).bind fun (req, tr) =>
        let r := env.Do c req
        .ok { resp := r.1, err := r.2, headers := headers, trace := tr ++ [.doCall req] }

/-- Source: `(*Client).Get`. -/
def Client.Get (env : Env) (c : Client) (url : String) (body : Value)
    (headers : Option HeaderMap) (tr : List Event) : Outcome Reply :=
  let bts := env.marshalQuery body
  let url := url ++ "?" ++ bts
  Client.request env c "GET" url (.buffer "") headers tr

/-- Source: `(*Client).GetJSON`. -/
def Client.GetJSON (env : Env) (c : Client) (url : String) (body : Value)
    (headers : Option HeaderMap) (tr : List Event) : Outcome Reply :=
  match headers with
  | none => .panic .nilDereference
  | some h =>
    Client.Get env c url body
      (some (env.mapPut h (.str "Content-Type") (.str "application/json"))) tr

/-- Source: `(*Client).Post`. -/
def Client.Post (env : Env) (c : Client) (url : String) (body : Body)
    (headers : Option HeaderMap) (tr : List Event) : Outcome Reply :=
  Client.request env c "POST" url body headers tr

/-- Source: `(*Client).PostJSON`. -/
def Client.PostJSON (env : Env) (c : Client) (url : String) (body : Body)
    (headers : Option HeaderMap) (tr : List Event) : Outcome Reply :=
  match headers with
  | none => .panic .nilDereference
  | some h =>
    Client.Post env c url body
      (some (env.mapPut h (.str "Content-Type") (.str "application/json"))) tr

/-- Source: `(*Client).Delete`. -/
def Client.Delete (env : Env) (c : Client) (url : String)
    (headers : Option HeaderMap) (tr : List Event) : Outcome Reply :=
  Client.request env c "DELETE" url .nil headers tr

/-- Source: `(*Client).Head`. -/
def Client.Head (env : Env) (c : Client) (url : String)
    (headers : Option HeaderMap) (tr : List Event) : Outcome Reply :=
  Client.request env c "HEAD" url .nil headers tr

/-! ## `http_request.go`: request descriptors and the asynchronous wrappers -/

/-- Source: `HTTPRequest`. -/
structure HTTPRequest where
  ID : String
  URL : String
  Payload : Option Value
  Headers : Option HeaderMap
  RetryMax : Int
  RetryWaitMax : Int
  Timeout : Int
  ReqPerSec : Int
  MaxPoolSize : Int
  Response : Option Response
  HttpError : Option Err
  Status : Int
  client : Option Client
  LogRequest : Bool
deriving DecidableEq, Repr

/-- Source: `(*HTTPRequest).Client`: the client is built on first use. The
result is the client together with the descriptor, which now remembers it. -/
def HTTPRequest.Client (w : HTTPRequest) : Outcome (Client × HTTPRequest) :=
  match w.client with
  | some c => .ok (c, w)
  | none =>
    let opts : Options :=
      { RetryWaitMin := 0
        RetryWaitMax := w.RetryWaitMax
        Timeout := w.Timeout
        RetryMax := w.RetryMax
        RespReadLimit := 0
        Verbose := false
        KillIdleConn := true
        MaxPoolSize := w.MaxPoolSize
        ReqPerSec := w.ReqPerSec
        Semaphore := none
        RateLimiter := none }
    (NewClient opts).bind fun c => .ok (c, { w with client := some c })

/-- The callback of `Log`, run over the entries of the map:
`headers[key.(string)] = value.(string)`. -/
def collectHeaders : List (Value × Value) → List (String × String) → Outcome (List (String × String))
  | [], acc => .ok acc
  | (.str k, .str v) :: rest, acc => collectHeaders rest (acc ++ [(k, v)])
  | _ :: _, _ => .panic .typeAssertion

/-- Source: `(*HTTPRequest).Log`. Nothing happens unless `LogRequest` is set;
otherwise the response body, when there is a response, is read to its end,
the headers are collected and one record is emitted. -/
def HTTPRequest.Log (env : Env) (w : HTTPRequest) (payload : Value) (err : Option Err)
    (tr : List Event) : Outcome (HTTPRequest × List Event) :=
  if !w.LogRequest then .ok (w, tr)
  else
    let response : String := match w.Response with
      | some r => r.Body
      | none => ""
    let statusCode : Int := match w.Response with
      | some r => r.StatusCode
      | none => 20
    let w1 : HTTPRequest := match w.Response with
      | some r => { w with Response := some { r with Body := "" } }
      | none => w
    match w1.Headers with
    | none => .panic .nilDereference
    | some h =>
      (collectHeaders (env.mapRange h) []).bind fun headers =>
        .ok (w1, tr ++ [.logged
          { url := w1.URL
            payload := payload
            headers := headers
            status := statusCode
            response := response
            isError := err.isSome }])

/-- The common tail of the verb methods: store the reply in the descriptor,
then log.
```go
y = w
y.Response = resp
y.HttpError = err
if err != nil {
    y.Log(payload, err)
    return y
}
y.Log(payload, nil)
return y
```
-/
def HTTPRequest.finish (env : Env) (w : HTTPRequest) (payload : Value) (r : Reply) :
    Outcome (HTTPRequest × List Event) :=
  let y := { w with Headers := r.headers, Response := r.resp, HttpError := r.err }
  y.Log env payload r.err r.trace

/-- The common head of the verb methods:
`if w.Headers == nil { w.Headers = mp.New() }`. -/
def HTTPRequest.ensureHeaders (env : Env) (w : HTTPRequest) : HTTPRequest :=
  if w.Headers.isNone then { w with Headers := some env.mapNew } else w

/-- Source: `(*HTTPRequest).Get`. -/
def HTTPRequest.Get (env : Env) (w : HTTPRequest) (payload : Value) (tr : List Event) :
    Outcome (HTTPRequest × List Event) :=
  let w := w.ensureHeaders env
  w.Client.bind fun (c, w) =>
    (Client.Get env c w.URL payload w.Headers tr).bind fun r =>
      w.finish env payload r

/-- Source: `(*HTTPRequest).PostJson`; the payload is a byte slice. -/
def HTTPRequest.PostJson (env : Env) (w : HTTPRequest) (payload : String) (tr : List Event) :
    Outcome (HTTPRequest × List Event) :=
  let w := w.ensureHeaders env
  w.Client.bind fun (c, w) =>
    (Client.PostJSON env c w.URL (.buffer payload) w.Headers tr).bind fun r =>
      w.finish env (.bytes payload) r

/-- Source: `(*HTTPRequest).GetJson`. -/
def HTTPRequest.GetJson (env : Env) (w : HTTPRequest) (payload : Value) (tr : List Event) :
    Outcome (HTTPRequest × List Event) :=
  let w := w.ensureHeaders env
  w.Client.bind fun (c, w) =>
    (Client.GetJSON env c w.URL payload w.Headers tr).bind fun r =>
      w.finish env payload r

/-- Source: `(*HTTPRequest).Post`. -/
def HTTPRequest.Post (env : Env) (w : HTTPRequest) (payload : Value) (tr : List Event) :
    Outcome (HTTPRequest × List Event) :=
  let w := w.ensureHeaders env
  w.Client.bind fun (c, w) =>
    (Client.Post env c w.URL (.value payload) w.Headers tr).bind fun r =>
      w.finish env payload r

/-- The `pool.WorkUnit` handed to a work function: the code only asks it
whether the unit was cancelled. -/
structure WorkUnit where
  IsCancelled : Bool
deriving DecidableEq, Repr

/-- What running a work function leaves behind: the two Go results
`(interface{}, error)`, where a non-nil first result is the descriptor itself,
the descriptor after the run, and the effects so far. -/
structure WorkReturn where
  value : Option HTTPRequest
  err : Option Err
  request : HTTPRequest
  trace : List Event
deriving DecidableEq, Repr

/-- Source: `(*HTTPRequest).AsyncGet`.
```go
return func(wu pool.WorkUnit) (interface{}, error) {
    if wu.IsCancelled() {
        return nil, nil
    }
    response := w.Get(payload)
    if response.HttpError != nil {
        return nil, response.HttpError
    }
    return w, nil
}
```
-/
def HTTPRequest.AsyncGet (env : Env) (w : HTTPRequest) (payload : Value) :
    WorkUnit → List Event → Outcome WorkReturn :=
  fun wu tr =>
    if wu.IsCancelled then .ok { value := none, err := none, request := w, trace := tr }
    else
      (w.Get env payload tr).bind fun (response, tr) =>
        if response.HttpError.isSome then
          .ok { value := none, err := response.HttpError, request := response, trace := tr }
        else .ok { value := some response, err := none, request := response, trace := tr }

/-- Source: `(*HTTPRequest).AsyncPostJson`. -/
def HTTPRequest.AsyncPostJson (env : Env) (w : HTTPRequest) (payload : String) :
    WorkUnit → List Event → Outcome WorkReturn :=
  fun wu tr =>
    if wu.IsCancelled then .ok { value := none, err := none, request := w, trace := tr }
    else
      (w.PostJson env payload tr).bind fun (response, tr) =>
        if response.HttpError.isSome then
          .ok { value := none, err := response.HttpError, request := response, trace := tr }
        else .ok { value := some response, err := none, request := response, trace := tr }

/-- Source: `(*HTTPRequest).AsyncGetJson`. -/
def HTTPRequest.AsyncGetJson (env : Env) (w : HTTPRequest) (payload : Value) :
    WorkUnit → List Event → Outcome WorkReturn :=
  fun wu tr =>
    if wu.IsCancelled then .ok { value := none, err := none, request := w, trace := tr }
    else
      (w.GetJson env payload tr).bind fun (response, tr) =>
        if response.HttpError.isSome then
          .ok { value := none, err := response.HttpError, request := response, trace := tr }
        else .ok { value := some response, err := none, request := response, trace := tr }

/-- Source: `(*HTTPRequest).AsyncPost`. -/
def HTTPRequest.AsyncPost (env : Env) (w : HTTPRequest) (payload : Value) :
    WorkUnit → List Event → Outcome WorkReturn :=
  fun wu tr =>
    if wu.IsCancelled then .ok { value := none, err := none, request := w, trace := tr }
    else
      (w.Post env payload tr).bind fun (response, tr) =>
        if response.HttpError.isSome then
          .ok { value := none, err := response.HttpError, request := response, trace := tr }
        else .ok { value := some response, err := none, request := response, trace := tr }

/-! ## Sample collaborators and inputs -/

/-- A sample environment: a URL that contains a space does not parse, every
request sent is answered 200, the map appends. -/
def sampleEnv : Env :=
  { NewRequest := fun method url body =>
      if url.data.contains ' ' then .error { msg := "invalid URL" }
      else .ok { method := method, url := url, body := body, header := [] }
    Do := fun _ _ => (some { StatusCode := 200, Body := "ok" }, none)
    marshalQuery := fun _ => ""
    mapNew := []
    mapPut := fun h k v => h ++ [(k, v)]
    mapRange := fun h => h }

/-- A sample environment whose sends all fail with a transport error. -/
def refusingEnv : Env :=
  { sampleEnv with Do := fun _ _ => (none, some { msg := "connection refused" }) }

/-- A sample descriptor with no client yet and no rate or pool limits. -/
def sampleRequest : HTTPRequest :=
  { ID := "1"
    URL := "http://localhost/a"
    Payload := none
    Headers := none
    RetryMax := 0
    RetryWaitMax := 0
    Timeout := 0
    ReqPerSec := 0
    MaxPoolSize := 0
    Response := none
    HttpError := none
    Status := 0
    client := none
    LogRequest := false }

/-! ## Auxiliary facts -/

/-- The ticker period `Second / r` is positive up to a rate of one request per
nanosecond. -/
theorem tdiv_second_pos (r : Int) (h0 : 0 < r) (h1 : r ≤ 1000000000) :
    0 < Int.tdiv Second r := by
  have hs : (0 : Int) ≤ Second := by decide
  rw [Int.tdiv_eq_ediv hs (le_of_lt h0)]
  have : (1 : Int) ≤ Second / r := by
    apply Int.le_ediv_of_mul_le h0
    simpa [Second] using h1
  omega

/-- Above one request per nanosecond the period is zero. -/
theorem tdiv_second_zero (r : Int) (h1 : 1000000000 < r) : Int.tdiv Second r = 0 := by
  have hs : (0 : Int) ≤ Second := by decide
  rw [Int.tdiv_eq_ediv hs (by omega)]
  exact Int.ediv_eq_zero_of_lt hs (by simpa [Second] using h1)

/-- The capacities `makechan` accepts for a `chan int`. -/
theorem makeChanInt_ok (n : Int) (h0 : 0 < n) (h1 : n ≤ maxChanCap) :
    makeChanInt n = .ok { cap := n } := by
  have h2 : n ≤ 35184372088819 := by simpa [maxChanCap, maxAlloc, hchanSize, intSize] using h1
  have h3 : ¬ (n < 0 ∨ intSize * n > maxAlloc - hchanSize) := by
    simp only [intSize, maxAlloc, hchanSize]
    omega
  simp only [makeChanInt, if_neg h3]

/-- The capacities `makechan` refuses for a `chan int`. -/
theorem makeChanInt_panics (n : Int) (h1 : maxChanCap < n) :
    makeChanInt n = .panic .chanSizeOutOfRange := by
  have h2 : 35184372088819 < n := by simpa [maxChanCap, maxAlloc, hchanSize, intSize] using h1
  have h3 : n < 0 ∨ intSize * n > maxAlloc - hchanSize := by
    simp only [intSize, maxAlloc, hchanSize]
    omega
  simp only [makeChanInt, if_pos h3]

/-- The client `NewClient` returns for a pool size the runtime accepts and a
rate of at most one request per nanosecond, field by field. -/
theorem NewClient_returns (o : Options) (hm : o.MaxPoolSize ≤ maxChanCap)
    (h : o.ReqPerSec ≤ 1000000000) :
    NewClient o = .ok
      { HTTPClient := some
          { Transport := some (.transport (some DefaultReusePooledTransport))
            Timeout := if o.Timeout > Second * 15 then adjustedTimeout o.Timeout else 0 }
        RequestLogHook := none
        ResponseLogHook := none
        ErrorHandler := none
        CheckRetry := .DefaultRetryPolicy
        Backoff := .ExponentialJitterBackoff
        options :=
          { o with
            Semaphore := if o.MaxPoolSize > 0 then some { cap := o.MaxPoolSize } else none
            RateLimiter :=
              if o.ReqPerSec > 0 then some { period := Int.tdiv Second o.ReqPerSec } else none
            KillIdleConn := false } } := by
  by_cases hp0 : o.MaxPoolSize > 0
  · have hmk := makeChanInt_ok _ hp0 hm
    by_cases hr : o.ReqPerSec > 0
    · have hp : ¬ Int.tdiv Second o.ReqPerSec ≤ 0 := not_le.mpr (tdiv_second_pos _ hr h)
      by_cases ht : o.Timeout > Second * 15 <;>
        simp [NewClient, hmk, NewTicker, Outcome.bind, setKillIdleConnections, DefaultClient,
          DefaultReusePooledTransport, hp0, hr, hp, ht]
    · by_cases ht : o.Timeout > Second * 15 <;>
        simp [NewClient, hmk, Outcome.bind, setKillIdleConnections, DefaultClient,
          DefaultReusePooledTransport, hp0, hr, ht]
  · by_cases hr : o.ReqPerSec > 0
    · have hp : ¬ Int.tdiv Second o.ReqPerSec ≤ 0 := not_le.mpr (tdiv_second_pos _ hr h)
      by_cases ht : o.Timeout > Second * 15 <;>
        simp [NewClient, NewTicker, Outcome.bind, setKillIdleConnections, DefaultClient,
          DefaultReusePooledTransport, hp0, hr, hp, ht]
    · by_cases ht : o.Timeout > Second * 15 <;>
        simp [NewClient, Outcome.bind, setKillIdleConnections, DefaultClient,
          DefaultReusePooledTransport, hp0, hr, ht]

/-- A pool size the runtime refuses makes `NewClient` panic in `make`. -/
theorem NewClient_panics_make (o : Options) (hm : maxChanCap < o.MaxPoolSize) :
    NewClient o = .panic .chanSizeOutOfRange := by
  have hp : o.MaxPoolSize > 0 := by
    have : (0 : Int) ≤ maxChanCap := by decide
    omega
  simp [NewClient, makeChanInt_panics _ hm, Outcome.bind, hp]

/-- At the largest `int` as pool size `NewClient` panics in `make`, whatever
the rate. -/
theorem NewClient_panics_at_largest_pool :
    NewClient { DefaultOptionsSingle with MaxPoolSize := 9223372036854775807, ReqPerSec := 3 }
      = .panic .chanSizeOutOfRange :=
  NewClient_panics_make _ (by decide)

/-- Above one request per nanosecond, with a pool size the runtime accepts,
`NewClient` panics in `time.NewTicker`. -/
theorem NewClient_panics (o : Options) (hm : o.MaxPoolSize ≤ maxChanCap)
    (h : 1000000000 < o.ReqPerSec) :
    NewClient o = .panic .nonPositiveInterval := by
  have hr : o.ReqPerSec > 0 := by omega
  by_cases hp : o.MaxPoolSize > 0
  · simp [NewClient, makeChanInt_ok _ hp hm, NewTicker, Outcome.bind, hr, hp,
      tdiv_second_zero _ h]
  · simp [NewClient, NewTicker, Outcome.bind, hr, hp, tdiv_second_zero _ h]


/-! ## `http.go` -/

/-- C6: the spraying transport has keep-alives disabled and the per-host idle
cap at -1, and is otherwise the pooled transport, field for field (idle cap
100, idle timeout 90 s, TLS handshake 10 s, expect-continue 1 s, response
header limit 4096); the pooled transport keeps connections alive and allows
100 idle connections per host. -/
theorem DefaultHostSprayingTransport_frame :
    DefaultHostSprayingTransport.DisableKeepAlives = true ∧
    DefaultHostSprayingTransport.MaxIdleConnsPerHost = -1 ∧
    DefaultHostSprayingTransport =
      { DefaultReusePooledTransport with DisableKeepAlives := true, MaxIdleConnsPerHost := -1 } ∧
    DefaultHostSprayingTransport.ProxyFromEnvironment =
      DefaultReusePooledTransport.ProxyFromEnvironment ∧
    DefaultHostSprayingTransport.DialContext = DefaultReusePooledTransport.DialContext ∧
    DefaultHostSprayingTransport.TLSClientConfig = DefaultReusePooledTransport.TLSClientConfig ∧
    DefaultHostSprayingTransport.MaxConnsPerHost = DefaultReusePooledTransport.MaxConnsPerHost ∧
    DefaultHostSprayingTransport.MaxIdleConns = 100 ∧
    DefaultHostSprayingTransport.IdleConnTimeout = 90 * Second ∧
    DefaultHostSprayingTransport.TLSHandshakeTimeout = 10 * Second ∧
    DefaultHostSprayingTransport.ExpectContinueTimeout = 1 * Second ∧
    DefaultHostSprayingTransport.MaxResponseHeaderBytes = 4096 ∧
    DefaultReusePooledTransport.MaxIdleConns = 100 ∧
    DefaultReusePooledTransport.IdleConnTimeout = 90 * Second ∧
    DefaultReusePooledTransport.TLSHandshakeTimeout = 10 * Second ∧
    DefaultReusePooledTransport.ExpectContinueTimeout = 1 * Second ∧
    DefaultReusePooledTransport.MaxResponseHeaderBytes = 4096 ∧
    DefaultReusePooledTransport.DisableKeepAlives = false ∧
    DefaultReusePooledTransport.MaxIdleConnsPerHost = 100 := by
  refine ⟨rfl, rfl, rfl, rfl, rfl, rfl, rfl, rfl, rfl, rfl, rfl, rfl, rfl, rfl, rfl, rfl, rfl,
    rfl, rfl⟩

/-! ## `client.go` -/

/-- C1: with `Timeout` = 16 s (above the 15 s threshold) `NewClient` sets the
HTTP client timeout to 4 s, not to 30% of 16 s (4.8 s): the product
`Seconds() * 0.3` is cut to a whole number before it is scaled by
`time.Second`. With 30 s the result is the 9 s the claim names. -/
theorem NewClient_timeout_whole_seconds :
    (∃ c h, NewClient { DefaultOptionsSingle with Timeout := 16 * Second } = .ok c ∧
      c.HTTPClient = some h ∧ h.Timeout = 4 * Second ∧
      h.Timeout ≠ 16 * Second * 3 / 10 ∧ 16 * Second * 3 / 10 = 4800000000) ∧
    (∃ c h, NewClient { DefaultOptionsSingle with Timeout := 30 * Second } = .ok c ∧
      c.HTTPClient = some h ∧ h.Timeout = 9 * Second) := by
  have h16 : adjustedTimeout (16 * Second) = 4 * Second := by
    set_option maxRecDepth 4000 in decide
  have h30 : adjustedTimeout (30 * Second) = 9 * Second := by
    set_option maxRecDepth 4000 in decide
  refine ⟨⟨_, _, NewClient_returns _ (by decide) (by decide), rfl, ?_, ?_, by decide⟩,
    ⟨_, _, NewClient_returns _ (by decide) (by decide), rfl, ?_⟩⟩
  · show (if (16 * Second : Int) > Second * 15 then adjustedTimeout (16 * Second) else 0) = _
    rw [if_pos (by decide), h16]
  · show (if (16 * Second : Int) > Second * 15 then adjustedTimeout (16 * Second) else 0) ≠ _
    rw [if_pos (by decide), h16]; decide
  · show (if (30 * Second : Int) > Second * 15 then adjustedTimeout (30 * Second) else 0) = _
    rw [if_pos (by decide), h30]

/-- C2: a user-enabled idle-kill switch is not kept. `NewClient` on
`DefaultOptionsSpraying` (KillIdleConn = true) returns a client that records
KillIdleConn = false, and so does `NewWithHTTPClient` on the pooled default
client: with a non-nil HTTP client the switch is overwritten from the
transport. -/
theorem setKillIdleConnections_overwrites_enabled :
    DefaultOptionsSpraying.KillIdleConn = true ∧
    (∃ c, NewClient DefaultOptionsSpraying = .ok c ∧ c.options.KillIdleConn = false) ∧
    (∃ c, NewWithHTTPClient (some DefaultClient) DefaultOptionsSpraying = .ok c ∧
      c.options.KillIdleConn = false) := by
  refine ⟨rfl, ⟨_, NewClient_returns _ (by decide) (by decide), rfl⟩, ⟨_, rfl, rfl⟩⟩

/-- C3: with a `*http.Transport` behind a non-nil HTTP client the recorded
switch is `DisableKeepAlives || MaxConnsPerHost < 0`; the per-host idle cap
`MaxIdleConnsPerHost` is not read. A transport with keep-alives on and
`MaxIdleConnsPerHost = -1` leaves KillIdleConn = false. -/
theorem NewWithHTTPClient_ignores_idle_cap :
    (∀ (o : Options) (b : Transport) (t : Int), ∃ c,
      NewWithHTTPClient (some { Transport := some (.transport (some b)), Timeout := t }) o
        = .ok c ∧
      c.options.KillIdleConn = (b.DisableKeepAlives || decide (b.MaxConnsPerHost < 0))) ∧
    (∃ c,
      NewWithHTTPClient
        (some { Transport := some (.transport
                  (some { DefaultReusePooledTransport with MaxIdleConnsPerHost := -1 }))
                Timeout := 0 })
        DefaultOptionsSingle = .ok c ∧
      c.options.KillIdleConn = false) := by
  refine ⟨fun o b t => ⟨_, rfl, rfl⟩, ⟨_, rfl, rfl⟩⟩

/-- C9: with a nil HTTP client and KillIdleConn = false the guard
`c.HTTPClient != nil || !c.options.KillIdleConn` holds, the transport is read
through the nil client and `NewWithHTTPClient` panics; with KillIdleConn = true
it returns and the switch stays true. -/
theorem NewWithHTTPClient_nil_client :
    (∀ o : Options,
      NewWithHTTPClient none { o with KillIdleConn := false } = .panic .nilDereference) ∧
    (∀ o : Options, ∃ c,
      NewWithHTTPClient none { o with KillIdleConn := true } = .ok c ∧
      c.options.KillIdleConn = true) := by
  refine ⟨fun o => rfl, fun o => ⟨_, rfl, rfl⟩⟩

/-- C10: `NewClient` is not total. For every rate above 1,000,000,000 it
panics: in `time.NewTicker`, because the period `time.Second / ReqPerSec` is
0, or already in `make` when the pool size is beyond what the runtime accepts
as a channel capacity. The instance 2,000,000,000 is evaluated. -/
theorem NewClient_panics_above_nanosecond_rate :
    (∀ (o : Options) (n : Nat),
      NewClient { o with ReqPerSec := 1000000001 + (n : Int) } =
        .panic (if o.MaxPoolSize ≤ maxChanCap then .nonPositiveInterval
                else .chanSizeOutOfRange)) ∧
    Int.tdiv Second 2000000000 = 0 ∧
    NewClient { DefaultOptionsSingle with ReqPerSec := 2000000000 }
      = .panic .nonPositiveInterval := by
  refine ⟨fun o n => ?_, by decide, NewClient_panics _ (by decide) (by decide)⟩
  by_cases hm : o.MaxPoolSize ≤ maxChanCap
  · rw [if_pos hm]
    refine NewClient_panics _ hm ?_
    show (1000000000 : Int) < 1000000001 + (n : Int)
    omega
  · rw [if_neg hm]
    exact NewClient_panics_make _ (not_le.mp hm)

/-- C4, as stated, fails: at 3 requests per second the ticker period is
333,333,333 ns, and three periods fall short of one second. -/
theorem ticker_period_below_inverse_rate :
    ∃ c t, NewClient { DefaultOptionsSingle with ReqPerSec := 3 } = .ok c ∧
      c.options.RateLimiter = some t ∧ t.period = 333333333 ∧
      ¬ (t.period * 3 ≥ 1000000000) := by
  refine ⟨_, _, NewClient_returns _ (by decide) (by decide), rfl, by decide, by decide⟩

/-- C4, amended: for a rate R > 0, every client `NewClient` returns has a
pacing ticker whose period is `time.Second / R` rounded down to whole
nanoseconds: period * R ≤ 1,000,000,000 < (period + 1) * R. The period is
positive, at most 1/R seconds and less than a nanosecond short of it, and
equal to it exactly when R divides 1,000,000,000. `NewClient` does return a
client when R ≤ 1,000,000,000 and `MaxPoolSize` is a channel capacity the
runtime accepts. -/
theorem ticker_period_floor (o : Options) (h0 : 0 < o.ReqPerSec) :
    (∀ c, NewClient o = .ok c →
      ∃ t, c.options.RateLimiter = some t ∧
        t.period = Int.tdiv Second o.ReqPerSec ∧
        0 < t.period ∧
        t.period * o.ReqPerSec ≤ 1000000000 ∧
        1000000000 < (t.period + 1) * o.ReqPerSec ∧
        (t.period * o.ReqPerSec = 1000000000 ↔ o.ReqPerSec ∣ 1000000000)) ∧
    (o.ReqPerSec ≤ 1000000000 → o.MaxPoolSize ≤ maxChanCap → ∃ c, NewClient o = .ok c) := by
  have hs : (0 : Int) ≤ Second := by decide
  have he : Int.tdiv Second o.ReqPerSec = Second / o.ReqPerSec :=
    Int.tdiv_eq_ediv hs (le_of_lt h0)
  have hle : Second / o.ReqPerSec * o.ReqPerSec ≤ Second := Int.ediv_mul_le _ (ne_of_gt h0)
  have hlt : Second < (Second / o.ReqPerSec + 1) * o.ReqPerSec :=
    Int.lt_ediv_add_one_mul_self _ h0
  refine ⟨fun c hc => ?_, fun h1 hm => ⟨_, NewClient_returns o hm h1⟩⟩
  by_cases hm : o.MaxPoolSize ≤ maxChanCap
  · by_cases h1 : o.ReqPerSec ≤ 1000000000
    · rw [NewClient_returns o hm h1] at hc
      injection hc with hc
      subst hc
      refine ⟨{ period := Int.tdiv Second o.ReqPerSec }, ?_, rfl,
        tdiv_second_pos _ h0 h1, ?_, ?_, ?_⟩
      · show (if o.ReqPerSec > 0 then some _ else none) = _
        rw [if_pos h0]
      · show Int.tdiv Second o.ReqPerSec * o.ReqPerSec ≤ 1000000000
        rw [he]; exact hle
      · show 1000000000 < (Int.tdiv Second o.ReqPerSec + 1) * o.ReqPerSec
        rw [he]; exact hlt
      · show Int.tdiv Second o.ReqPerSec * o.ReqPerSec = 1000000000 ↔ _
        rw [he]
        constructor
        · intro h
          exact ⟨Second / o.ReqPerSec, by rw [mul_comm]; exact h.symm⟩
        · intro h
          exact Int.ediv_mul_cancel h
    · rw [NewClient_panics o hm (not_le.mp h1)] at hc
      cases hc
  · rw [NewClient_panics_make o (not_le.mp hm)] at hc
    cases hc

/-- The amended C4 at 3 requests per second and 100 slots: `NewClient`
returns, and the period is 333,333,333 ns. -/
theorem ticker_period_floor_witness :
    ∃ c t, NewClient { DefaultOptionsSingle with ReqPerSec := 3 } = .ok c ∧
      c.options.RateLimiter = some t ∧
      t.period = Int.tdiv Second 3 ∧
      0 < t.period ∧
      t.period * 3 ≤ 1000000000 ∧
      1000000000 < (t.period + 1) * 3 ∧
      (t.period * 3 = 1000000000 ↔ (3 : Int) ∣ 1000000000) := by
  obtain ⟨c, hc⟩ :=
    (ticker_period_floor { DefaultOptionsSingle with ReqPerSec := 3 } (by decide)).2
      (by decide) (by decide)
  obtain ⟨t, ht⟩ :=
    (ticker_period_floor { DefaultOptionsSingle with ReqPerSec := 3 } (by decide)).1 c hc
  exact ⟨c, t, hc, ht⟩

/-- C5: every client `NewClient` returns holds a semaphore of exactly
`MaxPoolSize` slots when `MaxPoolSize > 0` and none when `MaxPoolSize` is 0 (or
negative), and no pacing source when `ReqPerSec` is 0; and `NewClient` does
return a client whenever `ReqPerSec` is at most 1,000,000,000 (in particular
0) and `MaxPoolSize` is a channel capacity the runtime accepts (in
particular 0 or negative, where no channel is made). -/
theorem NewClient_limiters (o : Options) :
    (∀ c, NewClient o = .ok c →
      (0 < o.MaxPoolSize → c.options.Semaphore = some { cap := o.MaxPoolSize }) ∧
      (o.MaxPoolSize ≤ 0 → c.options.Semaphore = none) ∧
      (o.ReqPerSec = 0 → c.options.RateLimiter = none)) ∧
    (o.ReqPerSec ≤ 1000000000 → o.MaxPoolSize ≤ maxChanCap → ∃ c, NewClient o = .ok c) := by
  constructor
  · intro c hc
    by_cases hm : o.MaxPoolSize ≤ maxChanCap
    · by_cases hr : o.ReqPerSec ≤ 1000000000
      · rw [NewClient_returns o hm hr] at hc
        injection hc with hc
        subst hc
        refine ⟨fun h => ?_, fun h => ?_, fun h => ?_⟩
        · show (if o.MaxPoolSize > 0 then some _ else none) = _
          rw [if_pos h]
        · show (if o.MaxPoolSize > 0 then some _ else none) = _
          rw [if_neg (not_lt.mpr h)]
        · show (if o.ReqPerSec > 0 then some _ else none) = _
          rw [if_neg (by omega)]
      · rw [NewClient_panics o hm (by omega)] at hc
        cases hc
    · rw [NewClient_panics_make o (not_le.mp hm)] at hc
      cases hc
  · intro hr hm
    exact ⟨_, NewClient_returns o hm hr⟩

/-- C5 at the spraying defaults (100 slots) and at options with no pool size
and no rate (no semaphore, no pacing source). -/
theorem NewClient_limiters_witness :
    (∃ c, NewClient DefaultOptionsSpraying = .ok c ∧
      c.options.Semaphore = some { cap := 100 }) ∧
    (∃ c, NewClient { DefaultOptionsSpraying with MaxPoolSize := 0, ReqPerSec := 0 } = .ok c ∧
      c.options.Semaphore = none ∧ c.options.RateLimiter = none) := by
  obtain ⟨c1, h1⟩ := (NewClient_limiters DefaultOptionsSpraying).2 (by decide) (by decide)
  obtain ⟨c2, h2⟩ :=
    (NewClient_limiters { DefaultOptionsSpraying with MaxPoolSize := 0, ReqPerSec := 0 }).2
      (by decide) (by decide)
  refine ⟨⟨c1, h1, ?_⟩, ⟨c2, h2, ?_, ?_⟩⟩
  · exact ((NewClient_limiters DefaultOptionsSpraying).1 c1 h1).1 (by decide)
  · exact ((NewClient_limiters
      { DefaultOptionsSpraying with MaxPoolSize := 0, ReqPerSec := 0 }).1 c2 h2).2.1 (by decide)
  · exact ((NewClient_limiters
      { DefaultOptionsSpraying with MaxPoolSize := 0, ReqPerSec := 0 }).1 c2 h2).2.2 rfl

/-! ## `methods.go` -/

/-- C8: when `NewRequest` fails, `Client.request` returns no response and
exactly that error; the header map and the trace are as before, so no header
was set and `Do` was not called. -/
theorem request_build_failure (env : Env) (c : Client) (method url : String) (body : Body)
    (headers : Option HeaderMap) (tr : List Event) (err : Err)
    (h : env.NewRequest method url body = .error err) :
    Client.request env c method url body headers tr =
      .ok { resp := none, err := some err, headers := headers, trace := tr } := by
  simp [Client.request, h]

/-- C8 on the sample environment: a URL with a space is refused, with one
header waiting in the map. -/
theorem request_build_failure_witness :
    Client.request sampleEnv
      { HTTPClient := none, RequestLogHook := none, ResponseLogHook := none,
        ErrorHandler := none, CheckRetry := .DefaultRetryPolicy, Backoff := .DefaultBackoff,
        options := DefaultOptionsSingle }
      "GET" "http://local host/" .nil (some [(.str "Accept", .str "text/plain")]) [] =
      .ok { resp := none, err := some { msg := "invalid URL" },
            headers := some [(.str "Accept", .str "text/plain")], trace := [] } :=
  request_build_failure sampleEnv _ "GET" "http://local host/" .nil _ [] { msg := "invalid URL" }
    rfl

/-! ## `http_request.go` -/

/-- Logging leaves the stored error as it is. -/
theorem Log_HttpError (env : Env) (w y : HTTPRequest) (payload : Value) (err : Option Err)
    (tr tr1 : List Event) (h : w.Log env payload err tr = .ok (y, tr1)) :
    y.HttpError = w.HttpError := by
  unfold HTTPRequest.Log at h
  by_cases hl : w.LogRequest = true
  · simp only [hl, Bool.not_true, Bool.false_eq_true, if_false] at h
    cases hr : w.Response with
    | none =>
      simp only [hr] at h
      cases hh : w.Headers with
      | none => simp [hh] at h
      | some hm =>
        simp only [hh] at h
        cases hc : collectHeaders (env.mapRange hm) [] with
        | panic p => simp [hc, Outcome.bind] at h
        | ok hs =>
          simp only [hc, Outcome.bind] at h
          injection h with h
          injection h with h1 h2
          rw [← h1]
    | some r =>
      simp only [hr] at h
      cases hh : w.Headers with
      | none => simp [hh] at h
      | some hm =>
        simp only [hh] at h
        cases hc : collectHeaders (env.mapRange hm) [] with
        | panic p => simp [hc, Outcome.bind] at h
        | ok hs =>
          simp only [hc, Outcome.bind] at h
          injection h with h
          injection h with h1 h2
          rw [← h1]
  · simp only [hl, Bool.not_false, if_true] at h
    injection h with h
    injection h with h1 h2
    rw [← h1]

/-- The tail of a verb method stores the error of the reply. -/
theorem finish_HttpError (env : Env) (w y : HTTPRequest) (payload : Value) (r : Reply)
    (tr1 : List Event) (h : w.finish env payload r = .ok (y, tr1)) :
    y.HttpError = r.err := by
  unfold HTTPRequest.finish at h
  exact Log_HttpError env _ y payload r.err r.trace tr1 h

/-- C7: each of `AsyncGet`, `AsyncPostJson`, `AsyncGetJson` and `AsyncPost`
returns a work function that, on a cancelled unit, yields (nil, nil) and
leaves the descriptor (its Response, HttpError, Headers and client) and the
trace of effects untouched, so no request is made. On a unit that is not
cancelled, once the client is at hand, the verb helper has produced its reply
`r` and the reply is stored, the work function yields (nil, r.err) when the
reply carries an error and (the descriptor, nil) otherwise, and the
descriptor records that error as its HttpError. -/
theorem async_work_functions (env : Env) (w : HTTPRequest) (payload : Value) (bytes : String)
    (wu : WorkUnit) (tr : List Event) :
    (wu.IsCancelled = true →
      w.AsyncGet env payload wu tr
        = .ok { value := none, err := none, request := w, trace := tr } ∧
      w.AsyncPostJson env bytes wu tr
        = .ok { value := none, err := none, request := w, trace := tr } ∧
      w.AsyncGetJson env payload wu tr
        = .ok { value := none, err := none, request := w, trace := tr } ∧
      w.AsyncPost env payload wu tr
        = .ok { value := none, err := none, request := w, trace := tr }) ∧
    (wu.IsCancelled = false →
      ∀ (c : Client) (w1 y : HTTPRequest) (r : Reply) (tr1 : List Event),
        (w.ensureHeaders env).Client = .ok (c, w1) →
        (Client.Get env c w1.URL payload w1.Headers tr = .ok r →
          w1.finish env payload r = .ok (y, tr1) →
          y.HttpError = r.err ∧
          w.AsyncGet env payload wu tr =
            .ok { value := if r.err.isSome then none else some y, err := r.err,
                  request := y, trace := tr1 }) ∧
        (Client.PostJSON env c w1.URL (.buffer bytes) w1.Headers tr = .ok r →
          w1.finish env (.bytes bytes) r = .ok (y, tr1) →
          y.HttpError = r.err ∧
          w.AsyncPostJson env bytes wu tr =
            .ok { value := if r.err.isSome then none else some y, err := r.err,
                  request := y, trace := tr1 }) ∧
        (Client.GetJSON env c w1.URL payload w1.Headers tr = .ok r →
          w1.finish env payload r = .ok (y, tr1) →
          y.HttpError = r.err ∧
          w.AsyncGetJson env payload wu tr =
            .ok { value := if r.err.isSome then none else some y, err := r.err,
                  request := y, trace := tr1 }) ∧
        (Client.Post env c w1.URL (.value payload) w1.Headers tr = .ok r →
          w1.finish env payload r = .ok (y, tr1) →
          y.HttpError = r.err ∧
          w.AsyncPost env payload wu tr =
            .ok { value := if r.err.isSome then none else some y, err := r.err,
                  request := y, trace := tr1 })) := by
  constructor
  · intro hc
    simp [HTTPRequest.AsyncGet, HTTPRequest.AsyncPostJson, HTTPRequest.AsyncGetJson,
      HTTPRequest.AsyncPost, hc]
  · intro hc c w1 y r tr1 hcl
    refine ⟨fun hv hf => ?_, fun hv hf => ?_, fun hv hf => ?_, fun hv hf => ?_⟩
    · have he := finish_HttpError env w1 y payload r tr1 hf
      refine ⟨he, ?_⟩
      simp only [HTTPRequest.AsyncGet, HTTPRequest.Get, hc, hcl, hv, hf, Outcome.bind, he]
      cases r.err <;> simp
    · have he := finish_HttpError env w1 y (.bytes bytes) r tr1 hf
      refine ⟨he, ?_⟩
      simp only [HTTPRequest.AsyncPostJson, HTTPRequest.PostJson, hc, hcl, hv, hf, Outcome.bind, he]
      cases r.err <;> simp
    · have he := finish_HttpError env w1 y payload r tr1 hf
      refine ⟨he, ?_⟩
      simp only [HTTPRequest.AsyncGetJson, HTTPRequest.GetJson, hc, hcl, hv, hf, Outcome.bind, he]
      cases r.err <;> simp
    · have he := finish_HttpError env w1 y payload r tr1 hf
      refine ⟨he, ?_⟩
      simp only [HTTPRequest.AsyncPost, HTTPRequest.Post, hc, hcl, hv, hf, Outcome.bind, he]
      cases r.err <;> simp

/-- C7 on the samples: a cancelled unit leaves everything as it was; a unit
that runs against the refusing environment yields (nil, the transport error);
a unit that runs against the answering environment yields the descriptor. -/
theorem async_work_functions_witness :
    sampleRequest.AsyncGet sampleEnv (.other 0) { IsCancelled := true } []
      = .ok { value := none, err := none, request := sampleRequest, trace := [] } ∧
    (∃ y tr1, sampleRequest.AsyncGet refusingEnv (.other 0) { IsCancelled := false } []
      = .ok { value := none, err := some { msg := "connection refused" },
              request := y, trace := tr1 } ∧
      y.HttpError = some { msg := "connection refused" }) ∧
    (∃ y tr1, sampleRequest.AsyncPost sampleEnv (.other 0) { IsCancelled := false } []
      = .ok { value := some y, err := none, request := y, trace := tr1 } ∧
      y.HttpError = none) := by
  refine ⟨((async_work_functions sampleEnv sampleRequest (.other 0) ""
      { IsCancelled := true } []).1 rfl).1, ?_, ?_⟩
  · have h := ((async_work_functions refusingEnv sampleRequest (.other 0) ""
      { IsCancelled := false } []).2 rfl _ _ _ _ _ rfl).1 rfl rfl
    exact ⟨_, _, h.2, h.1⟩
  · have h := ((async_work_functions sampleEnv sampleRequest (.other 0) ""
      { IsCancelled := false } []).2 rfl _ _ _ _ _ rfl).2.2.2 rfl rfl
    exact ⟨_, _, h.2, h.1⟩

end Xttp
